import Mathlib

/-!
Verification development for the hound configuration generator
(`write_config.py`). The script builds, per named profile, a mapping from
display name to repository descriptor, writes it to disk, and conditionally
restarts the corresponding service instance when the set of repository URLs
changed. Remote interactions (HTTP fetches, the process manager, the
previous on-disk file) are represented by an explicit environment record;
effects are represented as values (event traces, `Except` for raised
exceptions).
-/

deriving instance DecidableEq for Except

/-- Poll interval constant: `POLL = 90 * 60 * 1000` (write_config.py line 32). -/
def POLL : Nat := 90 * 60 * 1000

/-- The optional `url-pattern` sub-object of a repository descriptor. -/
structure UrlPattern where
  base_url : String
  anchor : String
deriving DecidableEq, Repr

/-- A repository descriptor as emitted into `config.json` under `repos`:
`url`, optional `url-pattern`, `ms-between-poll`. -/
structure Repo where
  url : String
  url_pattern : Option UrlPattern
  ms_between_poll : Nat
deriving DecidableEq, Repr

/-- `phab_repo` (write_config.py lines 123-132). -/
def phab_repo (name : String) : Repo :=
  { url := "https://phabricator.wikimedia.org/source/" ++ name
  , url_pattern := some
      { base_url := "https://phabricator.wikimedia.org/source/" ++ name ++ "/browse/master/{path};{rev}{anchor}"
      , anchor := "${line}" }
  , ms_between_poll := POLL }

/-- `repo_info` (write_config.py lines 135-144): the primary Gerrit adapter. -/
def repo_info (gerrit_name : String) : Repo :=
  { url := "https://gerrit-replica.wikimedia.org/r/" ++ gerrit_name ++ ".git"
  , url_pattern := some
      { base_url := "https://gerrit.wikimedia.org/g/" ++ gerrit_name ++ "/+/{rev}/{path}{anchor}"
      , anchor := "#{line}" }
  , ms_between_poll := POLL }

/-- `bitbucket_repo` (write_config.py lines 147-157): anchor format left empty. -/
def bitbucket_repo (bb_name : String) : Repo :=
  { url := "https://bitbucket.org/" ++ bb_name ++ ".git"
  , url_pattern := some
      { base_url := "https://bitbucket.org/" ++ bb_name ++ "/src/{rev}/{path}"
      , anchor := "" }
  , ms_between_poll := POLL }

/-- `gh_repo` with an explicit host argument (write_config.py lines 165-169). -/
def gh_repo_at (host : String) (gh_name : String) : Repo :=
  { url := "https://" ++ host ++ "/" ++ gh_name
  , url_pattern := none
  , ms_between_poll := POLL }

/-- `gh_repo` at its default host `github.com`. -/
def gh_repo (gh_name : String) : Repo := gh_repo_at "github.com" gh_name

/-- `gitlab_repo` (write_config.py lines 160-162): delegates to `gh_repo`. -/
def gitlab_repo (gl_name : String) : Repo := gh_repo_at "gitlab.com" gl_name

/-- Substring occurrence test on character lists, structurally recursive so
the kernel can evaluate it. -/
def listContainsSub (s pat : List Char) : Bool :=
  match s with
  | [] => pat.isEmpty
  | c :: rest => pat.isPrefixOf (c :: rest) || listContainsSub rest pat

/-- Substring containment test (Python `in` on strings): `pat` occurs in `s`. -/
def containsSub (s pat : String) : Bool := listContainsSub s.data pat.data

/-- If the first list is a prefix of the second, return the remainder. -/
def stripPrefixCL : List Char → List Char → Option (List Char)
  | [], rest => some rest
  | _, [] => none
  | p :: ps, c :: cs => if p == c then stripPrefixCL ps cs else none

/-- Replace every occurrence of `pat` by `rep`, scanning left to right
(Python `str.replace` semantics for a non-empty pattern). The fuel argument
makes the recursion structural; `replaceStr` supplies enough fuel. -/
def replaceFuel (pat rep : List Char) : Nat → List Char → List Char
  | _, [] => []
  | 0, s => s
  | fuel + 1, c :: rest =>
    match stripPrefixCL pat (c :: rest) with
    | some remainder => rep ++ replaceFuel pat rep fuel remainder
    | none => c :: replaceFuel pat rep fuel rest

/-- Python `s.replace(pat, rep)` for a non-empty `pat`. -/
def replaceStr (s pat rep : String) : String :=
  ⟨replaceFuel pat.data rep.data s.data.length s.data⟩

/-- Split a character list at every occurrence of `sep`. -/
def splitChar (sep : Char) : List Char → List (List Char)
  | [] => [[]]
  | c :: rest =>
    match splitChar sep rest with
    | [] => [[]]
    | cur :: done => if c == sep then [] :: cur :: done else (c :: cur) :: done

/-- ASCII whitespace, as stripped by Python `str.strip`. -/
def isSpaceChar (c : Char) : Bool := c == ' ' || c == '\t' || c == '\n' || c == '\r'

/-- Strip leading and trailing whitespace. -/
def trimCL (l : List Char) : List Char :=
  ((l.dropWhile isSpaceChar).reverse.dropWhile isSpaceChar).reverse

/-- Strip a trailing `.git` suffix if present (write_config.py lines 62-63). -/
def stripDotGit (u : String) : String :=
  if ".git".data.isSuffixOf u.data then ⟨u.data.take (u.data.length - 4)⟩ else u

/-- Outcome of classifying a single manifest entry: either an entry to add,
or a silent skip (the explicitly-known-but-unsupported host). -/
inductive Classified where
  | entry (name : String) (repo : Repo)
  | skip
deriving DecidableEq, Repr

/-- Classification of one manifest URL (write_config.py lines 60-80):
strip a trailing `.git`, then match known-host substrings in declared order;
`phabricator.nichework.com` is skipped; anything else raises. -/
def classify_url (u0 : String) : Except String Classified :=
  let u := stripDotGit u0
  if containsSub u "github.com" then
    let name := replaceStr (replaceStr u "git@github.com:" "") "https://github.com/" ""
    .ok (.entry name (gh_repo name))
  else if containsSub u "bitbucket.org" then
    let name := replaceStr u "https://bitbucket.org/" ""
    .ok (.entry name (bitbucket_repo name))
  else if containsSub u "gitlab.com" then
    let name := replaceStr u "https://gitlab.com/" ""
    .ok (.entry name (gitlab_repo name))
  else if containsSub u "invent.kde.org" then
    let name := replaceStr u "https://invent.kde.org/" ""
    .ok (.entry name (gh_repo_at "invent.kde.org" name))
  else if containsSub u "phabricator.nichework.com" then
    .ok .skip
  else
    .error ("Unsure how to handle URL: " ++ u)

/-- The loop body of `parse_gitmodules` (write_config.py lines 58-82) over the
sequence of section URLs: accumulate classified entries; a classification
failure aborts the whole resolution with no partial result. -/
def resolve_urls : List String → Except String (List (String × Repo))
  | [] => .ok []
  | u :: rest =>
    match classify_url u with
    | .error m => .error m
    | .ok c =>
      match resolve_urls rest with
      | .error m => .error m
      | .ok tail =>
        match c with
        | .entry n r => .ok ((n, r) :: tail)
        | .skip => .ok tail

/-- Modelled from the spec: the sectioned key/value manifest grammar
(section 6, "Manifest fetch": `[section]` headers, `key = value` lines) that
the Python stdlib ConfigParser implements; it is an external collaborator and
not part of src/. Collects the `url` value of each section, in order.
The Bool argument tracks whether a section header has been seen. -/
def manifest_lines_urls : List (List Char) → Bool → List String
  | [], _ => []
  | l :: rest, inSec =>
    let t := trimCL l
    if t.head? == some '[' && t.getLast? == some ']' then
      manifest_lines_urls rest true
    else
      match splitChar '=' t with
      | [k, v] =>
        if trimCL k == "url".data && inSec then
          (⟨trimCL v⟩ : String) :: manifest_lines_urls rest inSec
        else manifest_lines_urls rest inSec
      | _ => manifest_lines_urls rest inSec

/-- The section URLs of a raw manifest text, in section order. -/
def manifest_section_urls (text : String) : List String :=
  manifest_lines_urls (splitChar '\n' text.data) false

/-- `parse_gitmodules` (write_config.py lines 52-82) applied to already
fetched manifest text: parse sections, classify each `url`, resolve. -/
def parse_gitmodules_text (text : String) : Except String (List (String × Repo)) :=
  resolve_urls (manifest_section_urls text)

/-- Python dict insertion semantics for `conf` brackets `repos` brackets:
an existing key is updated in place, a new key is appended at the end. -/
def dinsert (m : List (String × Repo)) (k : String) (v : Repo) : List (String × Repo) :=
  if m.any (fun p => p.1 == k) then m.map (fun p => if p.1 == k then (k, v) else p)
  else m ++ [(k, v)]

/-- Build the final dict from the sequence of insertions performed by the
inclusion rules, in declared order. -/
def dict_of (l : List (String × Repo)) : List (String × Repo) :=
  l.foldl (fun m p => dinsert m p.1 p.2) []

/-- Lookup in the dict model (keys are unique in a `dict_of` result). -/
def dlookup (k : String) (m : List (String × Repo)) : Option Repo :=
  (m.find? (fun p => p.1 == k)).map (fun p => p.2)

/-- The boolean feature flags of `make_conf` (write_config.py lines 172-176),
in the order of the Python keyword parameters. -/
structure Flags where
  core : Bool
  exts : Bool
  skins : Bool
  ooui : Bool
  operations : Bool
  armchairgm : Bool
  twn : Bool
  milkshake : Bool
  bundled : Bool
  vendor : Bool
  wikimedia : Bool
  pywikibot : Bool
  services : Bool
  libs : Bool
  analytics : Bool
  puppet : Bool
  shouthow : Bool
  schemas : Bool
  wmcs : Bool
deriving DecidableEq, Repr

/-- All flags false (the Python defaults). -/
def Flags.noneSet : Flags :=
  ⟨false, false, false, false, false, false, false, false, false, false,
   false, false, false, false, false, false, false, false, false⟩

/-- The error taxonomy of a run: a failed remote fetch (`raise_for_status`),
a manifest classification failure (`RuntimeError` in `parse_gitmodules`), the
empty-listing sanity check (`RuntimeError`, T223771), and a failed
`systemctl restart` (`CalledProcessError` from `check_call`). -/
inductive Err where
  | fetch (what : String)
  | classify (msg : String)
  | emptyListing (msg : String)
  | restartFailed (unit : String)
deriving DecidableEq, Repr

/-- The two enumerable lists of the extdist listing response
(`data.query.extdistrepos` in write_config.py lines 200-218). -/
structure ExtdistRepos where
  extensions : List String
  skins : List String
deriving DecidableEq, Repr

/-- The `bundles` of the shared settings document consumed by
`bundled_repos` and `wikimedia_deployed_repos` (write_config.py lines 115-120). -/
structure SettingsDoc where
  base : List String
  wmf_core : List String
deriving DecidableEq, Repr

/-- `bundled_repos` (write_config.py lines 115-116). -/
def bundled_repos (s : SettingsDoc) : List String := s.base

/-- `wikimedia_deployed_repos` (write_config.py lines 119-120). -/
def wikimedia_deployed_repos (s : SettingsDoc) : List String := s.wmf_core

/-- The body of `gerrit_prefix_list` (write_config.py lines 104-112) applied
to a decoded response, given as (project name, state) pairs in response
order: keep `ACTIVE` projects and adapt each through `repo_info`. -/
def gerrit_prefix_list (entries : List (String × String)) : List (String × Repo) :=
  (entries.filter (fun e => e.2 == "ACTIVE")).map (fun e => (e.1, repo_info e.1))

/-- The external world of one run: each remote fetch either yields a decoded
response or fails (`Except`); the previous config file per instance dirname
(none when the file does not exist); the exit codes of the process-manager
status and restart commands per instance dirname. `gitmodules` yields the
section URLs of the manifest at the given raw URL. -/
structure Env where
  extdist : Except Err ExtdistRepos
  gitmodules : String → Except Err (List String)
  settings : Except Err SettingsDoc
  gerrit_projects : String → Except Err (List (String × String))
  old_conf : String → Option (List (String × Repo))
  status_exit : String → Nat
  restart_exit : String → Nat

/-- The static insertions of the `operations` block
(write_config.py lines 234-285), in source order. -/
def operations_entries : List (String × Repo) :=
  [ ("Wikimedia DNS", repo_info "operations/dns")
  , ("netbox DNS", phab_repo "netbox-exported-dns")
  , ("Wikimedia MediaWiki config", repo_info "operations/mediawiki-config")
  , ("scap", repo_info "mediawiki/tools/scap")
  , ("Wikimedia continuous integration config", repo_info "integration/config")
  , ("Blubber", repo_info "blubber")
  , ("pipelinelib", repo_info "integration/pipelinelib")
  , ("MediaWiki Vagrant", repo_info "mediawiki/vagrant")
  , ("operations/cookbooks", repo_info "operations/cookbooks")
  , ("operations/deployment-charts", repo_info "operations/deployment-charts")
  , ("operations/software", repo_info "operations/software")
  , ("operations/software/conftool", repo_info "operations/software/conftool")
  , ("operations/software/spicerack", repo_info "operations/software/spicerack")
  , ("operations/software/purged", repo_info "operations/software/purged")
  , ("performance/arc-lamp", repo_info "performance/arc-lamp")
  , ("performance/asoranking", repo_info "performance/asoranking")
  , ("performance/bttostatsv", repo_info "performance/bttostatsv")
  , ("performance/coal", repo_info "performance/coal")
  , ("performance/docroot", repo_info "performance/docroot")
  , ("performance/fresnel", repo_info "performance/fresnel")
  , ("performance/mobile-synthetic-monitoring-tests", repo_info "performance/mobile-synthetic-monitoring-tests")
  , ("performance/navtiming", repo_info "performance/navtiming")
  , ("performance/synthetic-monitoring-tests", repo_info "performance/synthetic-monitoring-tests")
  , ("performance/WikimediaDebug", repo_info "performance/WikimediaDebug") ]

/-- The `milkshake` block (write_config.py lines 293-297). -/
def milkshake_entries : List (String × Repo) :=
  ["jquery.uls", "jquery.ime", "jquery.webfonts", "jquery.i18n", "language-data"].map
    (fun r => (r, gh_repo ("wikimedia/" ++ r)))

/-- The static insertions of the `libs` block after the Gerrit listing
(write_config.py lines 323-357), in source order. -/
def libs_entries : List (String × Repo) :=
  [ ("AhoCorasick", repo_info "AhoCorasick")
  , ("cdb", repo_info "cdb")
  , ("CLDRPluralRuleParser", repo_info "CLDRPluralRuleParser")
  , ("HtmlFormatter", repo_info "HtmlFormatter")
  , ("IPSet", repo_info "IPSet")
  , ("RelPath", repo_info "RelPath")
  , ("RunningStat", repo_info "RunningStat")
  , ("WrappedString", repo_info "WrappedString")
  , ("MediaWiki CodeSniffer", repo_info "mediawiki/tools/codesniffer")
  , ("MediaWiki Phan", repo_info "mediawiki/tools/phan")
  , ("SecurityCheckPlugin", repo_info "mediawiki/tools/phan/SecurityCheckPlugin")
  , ("Purtle", repo_info "purtle")
  , ("wvui", repo_info "wvui")
  , ("codex", repo_info "design/codex")
  , ("WikibaseDataModel", gh_repo "wmde/WikibaseDataModel")
  , ("WikibaseDataModelSerialization", gh_repo "wmde/WikibaseDataModelSerialization")
  , ("WikibaseDataModelServices", gh_repo "wmde/WikibaseDataModelServices")
  , ("WikibaseInternalSerialization", gh_repo "wmde/WikibaseInternalSerialization")
  , ("wikibase-termbox", repo_info "wikibase/termbox")
  , ("wikibase-vuejs-components", repo_info "wikibase/vuejs-components")
  , ("WikibaseDataValuesValueView", repo_info "data-values/value-view")
  , ("WikibaseJavascriptAPI", repo_info "wikibase/javascript-api")
  , ("WikibaseDataValuesJavaScript", gh_repo "wmde/DataValuesJavaScript")
  , ("WikibaseSerializationJavaScript", gh_repo "wmde/WikibaseSerializationJavaScript")
  , ("WikibaseDataModelJavaScript", gh_repo "wmde/WikibaseDataModelJavaScript") ]

/-- The configuration-building part of `make_conf` (write_config.py lines
188-374): the sequence of `repos` insertions performed by the enabled
inclusion rules, in source order. Remote fetches occur in source order
(extdist always at line 197; manifest fetches under `exts` and `skins`; the
settings document under `bundled` and `wikimedia`; Gerrit listings under
`services`, `libs`, `analytics`, `schemas`, `wmcs`); the first raised
exception aborts the build. -/
def build_repos (env : Env) (f : Flags) : Except Err (List (String × Repo)) := do
  let data ← env.extdist
  let extsPart ←
    if f.exts then do
      if data.extensions.isEmpty then
        throw (Err.emptyListing "Why are there no Gerrit extensions?")
      let urls ← env.gitmodules "https://raw.githubusercontent.com/MWStake/nonwmf-extensions/master/.gitmodules"
      let mods ← (resolve_urls urls).mapError Err.classify
      pure (data.extensions.map (fun e => ("Extension:" ++ e, repo_info ("mediawiki/extensions/" ++ e)))
        ++ [("VisualEditor core", repo_info "VisualEditor/VisualEditor")]
        ++ mods)
    else pure []
  let skinsPart ←
    if f.skins then do
      let urls ← env.gitmodules "https://raw.githubusercontent.com/MWStake/nonwmf-skins/master/.gitmodules"
      let mods ← (resolve_urls urls).mapError Err.classify
      pure (data.skins.map (fun s => ("Skin:" ++ s, repo_info ("mediawiki/skins/" ++ s)))
        ++ mods)
    else pure []
  let bundledPart ←
    if f.bundled then do
      let s ← env.settings
      pure ((bundled_repos s).map (fun n => (n, repo_info n)))
    else pure []
  let wikimediaPart ←
    if f.wikimedia then do
      let s ← env.settings
      pure ((wikimedia_deployed_repos s).map (fun n => (n, repo_info n))
        ++ [("Wikimedia MediaWiki config", repo_info "operations/mediawiki-config"),
            ("WikimediaDebug", repo_info "performance/WikimediaDebug")])
    else pure []
  let servicesPart ←
    if f.services then do
      let g ← env.gerrit_projects "mediawiki/services/"
      pure (gerrit_prefix_list g
        ++ [("mwaddlink", repo_info "research/mwaddlink"),
            ("Wikidata Query GUI", repo_info "wikidata/query/gui"),
            ("Wikidata Query RDF", repo_info "wikidata/query/rdf")])
    else pure []
  let libsPart ←
    if f.libs then do
      let g ← env.gerrit_projects "mediawiki/libs/"
      pure (gerrit_prefix_list g ++ libs_entries)
    else pure []
  let analyticsPart ←
    if f.analytics then do
      let g ← env.gerrit_projects "analytics/"
      pure (gerrit_prefix_list g)
    else pure []
  let schemasPart ←
    if f.schemas then do
      let g ← env.gerrit_projects "schemas/event/"
      pure (gerrit_prefix_list g)
    else pure []
  let wmcsPart ←
    if f.wmcs then do
      let g1 ← env.gerrit_projects "operations/software/tools-"
      let g2 ← env.gerrit_projects "cloud/toolforge/"
      let g3 ← env.gerrit_projects "openstack/horizon/wmf-"
      pure (gerrit_prefix_list g1 ++ gerrit_prefix_list g2 ++ gerrit_prefix_list g3)
    else pure []
  pure (
    (if f.core then [("MediaWiki core", repo_info "mediawiki/core")] else [])
    ++ (if f.pywikibot then [("Pywikibot", repo_info "pywikibot/core")] else [])
    ++ (if f.ooui then [("OOUI", repo_info "oojs/ui")] else [])
    ++ extsPart
    ++ skinsPart
    ++ (if f.puppet then
          [("Wikimedia Puppet", repo_info "operations/puppet"),
           ("labs/private", repo_info "labs/private")] else [])
    ++ (if f.puppet || f.wmcs then
          [("cloud/instance-puppet", repo_info "cloud/instance-puppet"),
           ("cloud/instance-puppet-dev", repo_info "cloud/instance-puppet-dev")] else [])
    ++ (if f.operations then operations_entries else [])
    ++ (if f.armchairgm then [("ArmchairGM", gh_repo "mary-kate/ArmchairGM")] else [])
    ++ (if f.twn then [("translatewiki.net", repo_info "translatewiki")] else [])
    ++ (if f.milkshake then milkshake_entries else [])
    ++ bundledPart
    ++ wikimediaPart
    ++ (if f.vendor then [("mediawiki/vendor", repo_info "mediawiki/vendor")] else [])
    ++ servicesPart
    ++ libsPart
    ++ analyticsPart
    ++ schemasPart
    ++ (if f.shouthow then [("ShoutHow", gh_repo_at "git.legoktm.com" "ashley/ShoutHow")] else [])
    ++ wmcsPart)

/-- `extract_urls` (write_config.py lines 404-406): the set of unique `url`
strings of the `repos` dict values. -/
def extract_urls (repos : List (String × Repo)) : Finset String :=
  (repos.map (fun p => p.2.url)).toFinset

/-- The `old` fingerprint (write_config.py lines 381-385): the URL set of the
previous file when it exists, the empty set otherwise. -/
def old_urls (old_file : Option (List (String × Repo))) : Finset String :=
  match old_file with
  | some o => extract_urls o
  | none => (∅ : Finset String)

/-- The change decision `new != old` (write_config.py line 392). -/
def hasChanged (old_file : Option (List (String × Repo))) (repos : List (String × Repo)) : Bool :=
  decide (extract_urls repos ≠ old_urls old_file)

/-- Observable side effects of the persistence and restart tail of
`make_conf`, in occurrence order. -/
inductive Event where
  | readOldConfig
  | writeConfig
  | statusQuery (unit : String)
  | restartCmd (unit : String)
deriving DecidableEq, Repr

/-- The persistence and restart tail of `make_conf` (write_config.py lines
376-401): read the previous file if it exists, always write the new config,
then, only when `args.restart` is set and the URL set changed, query
`systemctl status`; a non-zero status exit means "not in systemd yet" and
skips the restart (returning normally); otherwise `systemctl restart` is
issued and its non-zero exit raises. Returns the event trace and the
outcome. -/
def publish (dirname : String) (restartFlag : Bool)
    (old_file : Option (List (String × Repo))) (repos : List (String × Repo))
    (statusExit restartExit : Nat) : List Event × Except Err Unit :=
  let readEvents : List Event :=
    match old_file with
    | some _ => [Event.readOldConfig]
    | none => []
  let base := readEvents ++ [Event.writeConfig]
  if restartFlag then
    if hasChanged old_file repos then
      if statusExit != 0 then
        (base ++ [Event.statusQuery dirname], Except.ok ())
      else if restartExit != 0 then
        (base ++ [Event.statusQuery dirname, Event.restartCmd dirname],
         Except.error (Err.restartFailed dirname))
      else
        (base ++ [Event.statusQuery dirname, Event.restartCmd dirname], Except.ok ())
    else (base, Except.ok ())
  else (base, Except.ok ())

/-- `make_conf` (write_config.py lines 172-401): build the repos dict, then
persist and conditionally restart. A build exception aborts before anything
is written. -/
def make_conf (name : String) (restartFlag : Bool) (env : Env) (f : Flags) :
    List Event × Except Err (List (String × Repo)) :=
  match build_repos env f with
  | .error e => ([], .error e)
  | .ok ins =>
    let repos := dict_of ins
    let dirname := "hound-" ++ name
    let r := publish dirname restartFlag (env.old_conf dirname) repos
      (env.status_exit dirname) (env.restart_exit dirname)
    (r.1, r.2.map (fun _ => repos))

/-- The declared profiles of `main` (write_config.py lines 416-464), in call
order, each with the keyword flags passed there. -/
def profiles : List (String × Flags) :=
  [ ("search", { Flags.noneSet with
      core := true, exts := true, skins := true, ooui := true,
      operations := true, puppet := true, twn := true, pywikibot := true,
      services := true, libs := true, analytics := true, wmcs := true,
      schemas := true })
  , ("core", { Flags.noneSet with core := true })
  , ("pywikibot", { Flags.noneSet with pywikibot := true })
  , ("extensions", { Flags.noneSet with exts := true })
  , ("skins", { Flags.noneSet with skins := true })
  , ("things", { Flags.noneSet with exts := true, skins := true })
  , ("ooui", { Flags.noneSet with ooui := true })
  , ("operations", { Flags.noneSet with operations := true, puppet := true })
  , ("armchairgm", { Flags.noneSet with armchairgm := true })
  , ("milkshake", { Flags.noneSet with milkshake := true })
  , ("bundled", { Flags.noneSet with core := true, bundled := true, vendor := true })
  , ("deployed", { Flags.noneSet with
      core := true, wikimedia := true, vendor := true, services := true })
  , ("services", { Flags.noneSet with services := true })
  , ("libraries", { Flags.noneSet with ooui := true, milkshake := true, libs := true })
  , ("analytics", { Flags.noneSet with analytics := true })
  , ("wmcs", { Flags.noneSet with wmcs := true })
  , ("puppet", { Flags.noneSet with puppet := true })
  , ("shouthow", { Flags.noneSet with shouthow := true }) ]

/-- Sequential processing of a profile list exactly as `main` does it: each
`make_conf` call runs in order, and an uncaught exception from one call
aborts the whole run (there is no try/except in `main`). Returns the names
of the profiles that completed and the first error, if any. -/
def run_profiles (restartFlag : Bool) (env : Env) :
    List (String × Flags) → List String × Option Err
  | [] => ([], none)
  | (n, f) :: rest =>
    match (make_conf n restartFlag env f).2 with
    | .error e => ([], some e)
    | .ok _ =>
      let r := run_profiles restartFlag env rest
      (n :: r.1, r.2)

/-- `main` (write_config.py lines 416-464): process the declared profiles in
order. -/
def main_model (restartFlag : Bool) (env : Env) : List String × Option Err :=
  run_profiles restartFlag env profiles

/-- Keys identifying the distinct remote queries a run can issue. -/
inductive QueryKey where
  | extdist
  | gitmodules (url : String)
  | settings
  | gerritList (pfx : String)
deriving DecidableEq, Repr

/-- Which query functions carry `functools.lru_cache`: `get_extdist_repos`
(line 36), `parse_gitmodules` (line 52) and `_settings_yaml` (line 92) do;
`gerrit_prefix_list` (line 98) does not. -/
def memoized : QueryKey → Bool
  | .extdist => true
  | .gitmodules _ => true
  | .settings => true
  | .gerritList _ => false

/-- The remote queries one `make_conf` call issues, in source order
(write_config.py lines 197, 209, 220, 300, 304, 316, 322, 360, 363,
370-374): extdist is queried unconditionally; the others only under their
flag. -/
def profile_queries (f : Flags) : List QueryKey :=
  [QueryKey.extdist]
  ++ (if f.exts then [QueryKey.gitmodules "https://raw.githubusercontent.com/MWStake/nonwmf-extensions/master/.gitmodules"] else [])
  ++ (if f.skins then [QueryKey.gitmodules "https://raw.githubusercontent.com/MWStake/nonwmf-skins/master/.gitmodules"] else [])
  ++ (if f.bundled then [QueryKey.settings] else [])
  ++ (if f.wikimedia then [QueryKey.settings] else [])
  ++ (if f.services then [QueryKey.gerritList "mediawiki/services/"] else [])
  ++ (if f.libs then [QueryKey.gerritList "mediawiki/libs/"] else [])
  ++ (if f.analytics then [QueryKey.gerritList "analytics/"] else [])
  ++ (if f.schemas then [QueryKey.gerritList "schemas/event/"] else [])
  ++ (if f.wmcs then
        [QueryKey.gerritList "operations/software/tools-",
         QueryKey.gerritList "cloud/toolforge/",
         QueryKey.gerritList "openstack/horizon/wmf-"] else [])

/-- Modelled from the spec / stdlib semantics of `functools.lru_cache`
(unbounded): a memoized query hits the network only when its key is not
cached yet; a non-memoized query hits the network every time. Returns the
subsequence of queries that actually reach the network, given the set of
already cached keys. -/
def run_fetches : List QueryKey → List QueryKey → List QueryKey
  | _, [] => []
  | seen, q :: rest =>
    if memoized q && seen.contains q then run_fetches seen rest
    else q :: run_fetches (q :: seen) rest

/-- All remote queries of one `main` run, in order. -/
def main_queries : List QueryKey :=
  (profiles.map (fun p => profile_queries p.2)).flatten

/-- A fixture environment in which every remote query succeeds with a small
response, no previous file exists, and the process manager reports success. -/
def env_ok : Env :=
  { extdist := .ok { extensions := ["Example"], skins := ["Vector"] }
  , gitmodules := fun _ => .ok []
  , settings := .ok { base := [], wmf_core := [] }
  , gerrit_projects := fun _ => .ok []
  , old_conf := fun _ => none
  , status_exit := fun _ => 0
  , restart_exit := fun _ => 0 }

/-- `env_ok` with the settings-document fetch failing. -/
def env_bad_settings : Env :=
  { env_ok with settings := .error (Err.fetch "settings.yaml") }

/-- `env_ok` with an empty skins sub-list in the extdist response. -/
def env_skins_empty : Env :=
  { env_ok with extdist := .ok { extensions := ["Example"], skins := [] } }

/-- `env_ok` with an empty extensions sub-list in the extdist response. -/
def env_exts_empty : Env :=
  { env_ok with extdist := .ok { extensions := [], skins := [] } }

/-- `env_ok` with the extdist listing fetch failing. -/
def env_extdist_error : Env :=
  { env_ok with extdist := .error (Err.fetch "extdist") }

/-- In a dict whose key-`k` entries were all replaced by `(k, v)`, the first
key-`k` hit is `(k, v)`, provided some key-`k` entry exists. -/
theorem find?_map_replace (m : List (String × Repo)) (k : String) (v : Repo)
    (h : m.any (fun p => p.1 == k) = true) :
    (m.map (fun p => if p.1 == k then (k, v) else p)).find? (fun p => p.1 == k) =
      some (k, v) := by
  induction m with
  | nil => simp at h
  | cons a m ih =>
    cases hb : (a.1 == k) with
    | true =>
      have hmap : (if (a.1 == k) = true then (k, v) else a) = (k, v) := by simp [hb]
      simp only [List.map_cons, hmap]
      exact List.find?_cons_of_pos _ (by simp)
    | false =>
      have hmap : (if (a.1 == k) = true then (k, v) else a) = a := by simp [hb]
      simp only [List.map_cons, hmap]
      rw [@List.find?_cons_of_neg _ (fun p => p.1 == k) a _ (by simp [hb])]
      apply ih
      simp only [List.any_cons, hb, Bool.false_or] at h
      exact h

theorem find?_map_replace_other (m : List (String × Repo)) (k q : String) (v : Repo)
    (h : (q == k) = false) :
    (m.map (fun p => if p.1 == q then (q, v) else p)).find? (fun p => p.1 == k) =
      m.find? (fun p => p.1 == k) := by
  induction m with
  | nil => simp
  | cons a m ih =>
    cases ha : (a.1 == q) with
    | true =>
      have ha1 : a.1 = q := beq_iff_eq.mp ha
      have hak : (a.1 == k) = false := by rw [ha1]; exact h
      have hmap : (if (a.1 == q) = true then (q, v) else a) = (q, v) := by simp [ha]
      simp only [List.map_cons, hmap]
      rw [@List.find?_cons_of_neg _ (fun p => p.1 == k) (q, v) _ (by simp [h]),
        @List.find?_cons_of_neg _ (fun p => p.1 == k) a _ (by simp [hak])]
      exact ih
    | false =>
      have hmap : (if (a.1 == q) = true then (q, v) else a) = a := by simp [ha]
      simp only [List.map_cons, hmap]
      cases hak : (a.1 == k) with
      | true =>
        rw [@List.find?_cons_of_pos _ (fun p => p.1 == k) a _ hak,
          @List.find?_cons_of_pos _ (fun p => p.1 == k) a _ hak]
      | false =>
        rw [@List.find?_cons_of_neg _ (fun p => p.1 == k) a _ (by simp [hak]),
          @List.find?_cons_of_neg _ (fun p => p.1 == k) a _ (by simp [hak])]
        exact ih

theorem find?_dinsert_self (m : List (String × Repo)) (k : String) (v : Repo) :
    (dinsert m k v).find? (fun p => p.1 == k) = some (k, v) := by
  cases hany : m.any (fun p => p.1 == k) with
  | true =>
    simp only [dinsert, hany, if_true]
    exact find?_map_replace m k v hany
  | false =>
    simp only [dinsert, hany, Bool.false_eq_true, if_false]
    rw [List.find?_append]
    have hnone : m.find? (fun p => p.1 == k) = none := by
      rw [List.find?_eq_none]
      intro x hx hpx
      have : m.any (fun p => p.1 == k) = true := List.any_eq_true.mpr ⟨x, hx, hpx⟩
      rw [hany] at this
      exact absurd this (by simp)
    rw [hnone]
    simp [List.find?_cons_of_pos]

theorem find?_dinsert_other (m : List (String × Repo)) (k q : String) (v : Repo)
    (h : (q == k) = false) :
    (dinsert m q v).find? (fun p => p.1 == k) = m.find? (fun p => p.1 == k) := by
  cases hany : m.any (fun p => p.1 == q) with
  | true =>
    simp only [dinsert, hany, if_true]
    exact find?_map_replace_other m k q v h
  | false =>
    simp only [dinsert, hany, Bool.false_eq_true, if_false]
    rw [List.find?_append]
    have hsing : List.find? (fun p => p.1 == k) [(q, v)] = none := by
      rw [@List.find?_cons_of_neg _ (fun p => p.1 == k) (q, v) _ (by simp [h])]
      rfl
    rw [hsing]
    cases hm : m.find? (fun p => p.1 == k) <;> rfl

theorem dlookup_dict_of (l : List (String × Repo)) (k : String) :
    dlookup k (dict_of l) =
      ((l.filter (fun p => p.1 == k)).getLast?).map (fun p => p.2) := by
  induction l using List.reverseRecOn with
  | nil => simp [dlookup, dict_of]
  | append_singleton l p ih =>
    have hd : dict_of (l ++ [p]) = dinsert (dict_of l) p.1 p.2 := by
      simp [dict_of, List.foldl_append]
    rw [hd, List.filter_append]
    cases hp : (p.1 == k) with
    | true =>
      have hp1 : p.1 = k := beq_iff_eq.mp hp
      have hfilt : List.filter (fun p => p.1 == k) [p] = [p] := by
        simp [List.filter_cons, hp]
      rw [hfilt, List.getLast?_concat]
      simp only [dlookup]
      rw [hp1, find?_dinsert_self]
      rfl
    | false =>
      have hfilt : List.filter (fun p => p.1 == k) [p] = [] := by
        simp [List.filter_cons, hp]
      rw [hfilt, List.append_nil]
      simp only [dlookup] at ih ⊢
      rw [find?_dinsert_other _ _ _ _ hp]
      exact ih

/-- A resolution that returns a result classified every entry successfully:
one classification failure makes any successful overall result impossible
(no partial result for the manifest). -/
theorem resolve_urls_not_ok_of_error (l : List String) (u m : String)
    (hu : u ∈ l) (hc : classify_url u = .error m) (r : List (String × Repo)) :
    resolve_urls l ≠ .ok r := by
  induction l generalizing r with
  | nil => simp at hu
  | cons a rest ih =>
    intro habs
    rcases List.mem_cons.mp hu with h1 | h1
    · subst h1
      simp [resolve_urls, hc] at habs
    · cases hca : classify_url a with
      | error e => simp [resolve_urls, hca] at habs
      | ok c =>
        cases hr : resolve_urls rest with
        | error e => simp [resolve_urls, hca, hr] at habs
        | ok tail => exact absurd hr (ih h1 tail)

/-- A skipped entry contributes nothing: resolution with the entry equals
resolution without it. -/
theorem resolve_urls_skip_elim (l1 l2 : List String) (u : String)
    (h : classify_url u = .ok .skip) :
    resolve_urls (l1 ++ u :: l2) = resolve_urls (l1 ++ l2) := by
  induction l1 with
  | nil =>
    simp only [List.nil_append, resolve_urls, h]
    cases hr : resolve_urls l2 <;> simp
  | cons a l1 ih =>
    simp [resolve_urls, ih]

/-- A memoized query reaches the network at most once per run (zero times if
its key is already cached). -/
theorem count_run_fetches_memoized (k : QueryKey) (hk : memoized k = true) :
    ∀ (qs seen : List QueryKey),
      (run_fetches seen qs).count k ≤ (if k ∈ seen then 0 else 1) := by
  intro qs
  induction qs with
  | nil =>
    intro seen
    simp [run_fetches]
  | cons q rest ih =>
    intro seen
    cases hq : (memoized q && seen.contains q) with
    | true =>
      simp only [run_fetches, hq, if_true]
      exact ih seen
    | false =>
      simp only [run_fetches, hq, Bool.false_eq_true, if_false]
      rw [List.count_cons]
      by_cases hqk : q = k
      · subst hqk
        have hmem : ¬ q ∈ seen := by
          intro hmem
          have hc : seen.contains q = true := by simpa [List.elem_iff] using hmem
          rw [hk, hc] at hq
          simp at hq
        have h1 : (run_fetches (q :: seen) rest).count q ≤ 0 := by
          have h2 := ih (q :: seen)
          simpa [List.mem_cons] using h2
        simp only [hmem, if_false, beq_self_eq_true, if_true]
        omega
      · have hbeq : (q == k) = false := by
          simp [hqk]
        have hmem : (k ∈ q :: seen) ↔ (k ∈ seen) := by
          rw [List.mem_cons]
          constructor
          · rintro (h | h)
            · exact absurd h.symm hqk
            · exact h
          · exact Or.inr
        have h2 := ih (q :: seen)
        rw [if_congr hmem rfl rfl] at h2
        simp only [hbeq, Bool.false_eq_true, if_false]
        omega

/-- A non-memoized query reaches the network once per occurrence in the run. -/
theorem count_run_fetches_not_memoized (k : QueryKey) (hk : memoized k = false) :
    ∀ (qs seen : List QueryKey),
      (run_fetches seen qs).count k = qs.count k := by
  intro qs
  induction qs with
  | nil =>
    intro seen
    simp [run_fetches]
  | cons q rest ih =>
    intro seen
    cases hq : (memoized q && seen.contains q) with
    | true =>
      have hq2 : memoized q = true ∧ seen.contains q = true := by
        rw [← Bool.and_eq_true]
        exact hq
      have hqk : (q == k) = false := by
        rw [Bool.eq_false_iff]
        intro habs
        rw [beq_iff_eq.mp habs] at hq2
        rw [hk] at hq2
        simp at hq2
      simp only [run_fetches, hq, if_true, List.count_cons, hqk,
        Bool.false_eq_true, if_false]
      rw [ih seen]
      omega
    | false =>
      simp only [run_fetches, hq, Bool.false_eq_true, if_false]
      rw [List.count_cons, List.count_cons, ih (q :: seen)]

/-- A failing extdist fetch aborts `build_repos` for every flag combination:
the fetch sits before any flag test (write_config.py line 197). -/
theorem build_repos_extdist_error (env : Env) (f : Flags) (e : Err)
    (h : env.extdist = .error e) : build_repos env f = .error e := by
  unfold build_repos
  rw [h]
  rfl

/-- With `exts` enabled and an empty extensions sub-list, `build_repos`
raises the empty-listing sanity check (write_config.py lines 200-201). -/
theorem build_repos_exts_empty (env : Env) (f : Flags) (d : ExtdistRepos)
    (hf : f.exts = true) (hd : env.extdist = .ok d) (he : d.extensions = []) :
    build_repos env f = .error (Err.emptyListing "Why are there no Gerrit extensions?") := by
  obtain ⟨dext, dsk⟩ := d
  replace he : dext = [] := he
  subst he
  unfold build_repos
  rw [hd, hf]
  rfl

/-- C7: the manifest text with one section `[foo]` and
`url = https://github.com/org/repo.git` resolves to exactly one entry named
`org/repo` whose descriptor has remoteLocation `https://github.com/org/repo`,
poll interval 5400000 milliseconds, and no browse-URL template. -/
theorem C7_github_manifest_scenario :
    parse_gitmodules_text "[foo]\nurl = https://github.com/org/repo.git\n" =
      .ok [("org/repo",
        { url := "https://github.com/org/repo"
        , url_pattern := none
        , ms_between_poll := 5400000 })] := by
  decide

/-- C6: manifest URL classification strips a trailing `.git` (witnessed on a
github URL), and for every URL follows the fixed declared match order: a
github match dispatches to the github adapter, a bitbucket match to the
bitbucket adapter, a gitlab match to the gitlab adapter, and an
invent.kde.org match to the github adapter at that host (each with its host
prefix removed); the `phabricator.nichework.com` host is silently skipped
(the entry contributes nothing to the resolution); any URL matching no
known host raises an error carrying the offending stripped URL; and such
an error aborts the whole manifest resolution: no partial result is
returned. -/
theorem C6_classification_dispatch_skip_error :
    (classify_url "https://github.com/org/repo.git" =
      classify_url "https://github.com/org/repo") ∧
    (∀ u, containsSub (stripDotGit u) "github.com" = true →
      classify_url u = .ok (.entry
        (replaceStr (replaceStr (stripDotGit u) "git@github.com:" "") "https://github.com/" "")
        (gh_repo (replaceStr (replaceStr (stripDotGit u) "git@github.com:" "") "https://github.com/" "")))) ∧
    (∀ u, containsSub (stripDotGit u) "github.com" = false →
      containsSub (stripDotGit u) "bitbucket.org" = true →
      classify_url u = .ok (.entry
        (replaceStr (stripDotGit u) "https://bitbucket.org/" "")
        (bitbucket_repo (replaceStr (stripDotGit u) "https://bitbucket.org/" "")))) ∧
    (∀ u, containsSub (stripDotGit u) "github.com" = false →
      containsSub (stripDotGit u) "bitbucket.org" = false →
      containsSub (stripDotGit u) "gitlab.com" = true →
      classify_url u = .ok (.entry
        (replaceStr (stripDotGit u) "https://gitlab.com/" "")
        (gitlab_repo (replaceStr (stripDotGit u) "https://gitlab.com/" "")))) ∧
    (∀ u, containsSub (stripDotGit u) "github.com" = false →
      containsSub (stripDotGit u) "bitbucket.org" = false →
      containsSub (stripDotGit u) "gitlab.com" = false →
      containsSub (stripDotGit u) "invent.kde.org" = true →
      classify_url u = .ok (.entry
        (replaceStr (stripDotGit u) "https://invent.kde.org/" "")
        (gh_repo_at "invent.kde.org" (replaceStr (stripDotGit u) "https://invent.kde.org/" "")))) ∧
    (∀ u, containsSub (stripDotGit u) "github.com" = false →
      containsSub (stripDotGit u) "bitbucket.org" = false →
      containsSub (stripDotGit u) "gitlab.com" = false →
      containsSub (stripDotGit u) "invent.kde.org" = false →
      containsSub (stripDotGit u) "phabricator.nichework.com" = true →
      classify_url u = .ok .skip) ∧
    (∀ (l1 l2 : List String) (u : String), classify_url u = .ok .skip →
      resolve_urls (l1 ++ u :: l2) = resolve_urls (l1 ++ l2)) ∧
    (∀ u, containsSub (stripDotGit u) "github.com" = false →
      containsSub (stripDotGit u) "bitbucket.org" = false →
      containsSub (stripDotGit u) "gitlab.com" = false →
      containsSub (stripDotGit u) "invent.kde.org" = false →
      containsSub (stripDotGit u) "phabricator.nichework.com" = false →
      classify_url u = .error ("Unsure how to handle URL: " ++ stripDotGit u)) ∧
    (∀ (l : List String) (u m : String) (r : List (String × Repo)),
      u ∈ l → classify_url u = .error m → resolve_urls l ≠ .ok r) := by
  refine ⟨by decide, ?_, ?_, ?_, ?_, ?_, resolve_urls_skip_elim, ?_, ?_⟩
  · intro u h
    simp [classify_url, h]
  · intro u h1 h2
    simp [classify_url, h1, h2]
  · intro u h1 h2 h3
    simp [classify_url, h1, h2, h3]
  · intro u h1 h2 h3 h4
    simp [classify_url, h1, h2, h3, h4]
  · intro u h1 h2 h3 h4 h5
    simp [classify_url, h1, h2, h3, h4, h5]
  · intro u h1 h2 h3 h4 h5
    simp [classify_url, h1, h2, h3, h4, h5]
  · intro l u m r hu hc
    exact resolve_urls_not_ok_of_error l u m hu hc r

/-- C6 witness: a URL matching no known host yields the classification
error carrying the stripped URL. -/
theorem C6_classification_witness :
    classify_url "https://example.com/x.git" =
      .error ("Unsure how to handle URL: " ++ stripDotGit "https://example.com/x.git") :=
  C6_classification_dispatch_skip_error.2.2.2.2.2.2.2.1 "https://example.com/x.git"
    (by decide) (by decide) (by decide) (by decide) (by decide)

/-- C5 (counterexample): the Gerrit listing for the parameter
`mediawiki/services/` is fetched three times in one declared run (by the
search, deployed and services profiles) because `gerrit_prefix_list`
carries no cache; the claim that every shared listed query is fetched at
most once per distinct parameter is false. -/
theorem C5_counterexample_gerrit_not_memoized :
    (run_fetches [] main_queries).count (QueryKey.gerritList "mediawiki/services/") = 3 ∧
    ¬ ((run_fetches [] main_queries).count (QueryKey.gerritList "mediawiki/services/") ≤ 1) := by
  decide

/-- C5 (amended): the extdist listing, the submodule-manifest fetches and
the settings document carry `functools.lru_cache` and are fetched at most
once per distinct query key per run; the Gerrit prefix listings have no
cache and are fetched once per occurrence across the run. -/
theorem C5_amended_memoization :
    (∀ (qs : List QueryKey) (k : QueryKey), memoized k = true →
      (run_fetches [] qs).count k ≤ 1) ∧
    (∀ (qs : List QueryKey) (k : QueryKey), memoized k = false →
      (run_fetches [] qs).count k = qs.count k) ∧
    memoized QueryKey.extdist = true ∧
    (∀ u, memoized (QueryKey.gitmodules u) = true) ∧
    memoized QueryKey.settings = true ∧
    (∀ s, memoized (QueryKey.gerritList s) = false) := by
  refine ⟨?_, ?_, rfl, fun u => rfl, rfl, fun s => rfl⟩
  · intro qs k hk
    have h := count_run_fetches_memoized k hk qs []
    simpa using h
  · intro qs k hk
    exact count_run_fetches_not_memoized k hk qs []

/-- C5 witness: the memoized extdist listing reaches the network at most
once across the whole declared run. -/
theorem C5_amended_witness :
    (run_fetches [] main_queries).count QueryKey.extdist ≤ 1 :=
  C5_amended_memoization.1 main_queries QueryKey.extdist rfl

/-- C9: every `make_conf` invocation queries the extdist listing, before
and independently of the exts and skins flags, and a failure of that single
fetch aborts the build for every flag combination — including the core-only
and pywikibot-only profiles, whose enabled rules never consume the
listing. -/
theorem C9_extdist_fetched_unconditionally :
    (∀ f : Flags, QueryKey.extdist ∈ profile_queries f) ∧
    (∀ (env : Env) (f : Flags) (e : Err),
      env.extdist = .error e → build_repos env f = .error e) ∧
    (build_repos env_extdist_error { Flags.noneSet with core := true } =
      .error (Err.fetch "extdist")) ∧
    (build_repos env_extdist_error { Flags.noneSet with pywikibot := true } =
      .error (Err.fetch "extdist")) := by
  refine ⟨?_, build_repos_extdist_error, by decide, by decide⟩
  intro f
  simp [profile_queries]

/-- C9 witness: with the extdist fetch failing, even the all-flags-off
build fails with that fetch error. -/
theorem C9_extdist_witness :
    build_repos env_extdist_error Flags.noneSet = .error (Err.fetch "extdist") :=
  C9_extdist_fetched_unconditionally.2.1 env_extdist_error Flags.noneSet
    (Err.fetch "extdist") rfl

/-- C4 (counterexample): with the skins rule enabled and an empty skins
sub-list in the extdist response, the build succeeds with an empty repos
mapping instead of failing fatally: the skins sub-list is never checked for
emptiness. -/
theorem C4_counterexample_skins_unchecked :
    build_repos env_skins_empty { Flags.noneSet with skins := true } = .ok [] := by
  decide

/-- C4 (amended): only the extensions sub-list is guarded: when the exts
rule is enabled and the extensions sub-list is empty, the build fails
fatally with the empty-listing error; an enabled skins rule whose skins
sub-list is empty does not fail and silently yields a profile without
skins. -/
theorem C4_amended_only_extensions_checked :
    (∀ (env : Env) (f : Flags) (d : ExtdistRepos),
      f.exts = true → env.extdist = .ok d → d.extensions = [] →
      build_repos env f =
        .error (Err.emptyListing "Why are there no Gerrit extensions?")) ∧
    build_repos env_skins_empty { Flags.noneSet with skins := true } = .ok [] := by
  refine ⟨?_, by decide⟩
  intro env f d hf hd he
  exact build_repos_exts_empty env f d hf hd he

/-- C4 witness: a run with exts enabled and an empty extensions sub-list
fails with the empty-listing error. -/
theorem C4_amended_witness :
    build_repos env_exts_empty { Flags.noneSet with exts := true } =
      .error (Err.emptyListing "Why are there no Gerrit extensions?") :=
  C4_amended_only_extensions_checked.1 env_exts_empty
    { Flags.noneSet with exts := true } { extensions := [], skins := [] }
    rfl rfl rfl

/-- C1 (counterexample): with the settings-document fetch failing, the run
processes the first ten declared profiles, aborts at the eleventh
(`bundled`, the first to consult the settings document), and the queued
sibling profiles (deployed, services, libraries, analytics, wmcs, puppet,
shouthow) are never processed — the failure is not caught at the
profile-processing boundary. -/
theorem C1_counterexample_no_isolation :
    main_model false env_bad_settings =
      (["search", "core", "pywikibot", "extensions", "skins", "things", "ooui",
        "operations", "armchairgm", "milkshake"],
       some (Err.fetch "settings.yaml")) ∧
    ¬ ("deployed" ∈ (main_model false env_bad_settings).1) ∧
    ¬ ("services" ∈ (main_model false env_bad_settings).1) := by
  refine ⟨by decide, by decide, by decide⟩

/-- C1 (amended): there is no per-profile catch: when the profiles before
some failing profile all succeed and that profile raises, the run returns
exactly the names of the preceding profiles together with the error — the
failing profile and every queued sibling after it are not processed. -/
theorem C1_amended_uncaught_error_aborts_run (restartFlag : Bool) (env : Env)
    (l1 : List (String × Flags)) (n : String) (f : Flags)
    (l2 : List (String × Flags)) (e : Err)
    (h1 : ∀ p ∈ l1, ((make_conf p.1 restartFlag env p.2).2).isOk = true)
    (h2 : (make_conf n restartFlag env f).2 = .error e) :
    run_profiles restartFlag env (l1 ++ (n, f) :: l2) =
      (l1.map (fun p => p.1), some e) := by
  induction l1 with
  | nil =>
    simp only [List.nil_append, run_profiles, h2, List.map_nil]
  | cons a l1 ih =>
    obtain ⟨an, af⟩ := a
    have ha := h1 (an, af) (List.mem_cons_self (an, af) l1)
    cases hma : (make_conf an restartFlag env af).2 with
    | error e2 =>
      rw [hma] at ha
      simp [Except.isOk, Except.toBool] at ha
    | ok v =>
      simp only [List.cons_append, run_profiles, hma, List.append_eq]
      rw [ih (fun p hp => h1 p (List.mem_cons_of_mem (an, af) hp))]
      simp

/-- C1 witness: a concrete three-profile run in which the first profile
succeeds, the second fails on the settings fetch, and the third is never
processed. -/
theorem C1_amended_witness :
    run_profiles false env_bad_settings
      [("core", { Flags.noneSet with core := true }),
       ("bundled", { Flags.noneSet with core := true, bundled := true, vendor := true }),
       ("deployed", { Flags.noneSet with
          core := true, wikimedia := true, vendor := true, services := true })] =
      (["core"], some (Err.fetch "settings.yaml")) :=
  C1_amended_uncaught_error_aborts_run false env_bad_settings
    [("core", { Flags.noneSet with core := true })]
    "bundled" { Flags.noneSet with core := true, bundled := true, vendor := true }
    [("deployed", { Flags.noneSet with
        core := true, wikimedia := true, vendor := true, services := true })]
    (Err.fetch "settings.yaml")
    (by decide) (by decide)

/-- C2: the change decision returns true exactly when the URL fingerprint
sets differ (the previous mapping contributing the empty set when absent);
renaming display names while keeping the descriptor values — in particular
every remoteLocation — fixed yields no change; and it returns false exactly
when the two URL sets are equal. -/
theorem C2_hasChanged_iff_url_sets_differ :
    (∀ (old_file : Option (List (String × Repo))) (repos : List (String × Repo)),
      hasChanged old_file repos = true ↔ extract_urls repos ≠ old_urls old_file) ∧
    (∀ (prev next : List (String × Repo)),
      prev.map (fun p => p.2) = next.map (fun p => p.2) →
      hasChanged (some prev) next = false) ∧
    (∀ (old_file : Option (List (String × Repo))) (repos : List (String × Repo)),
      hasChanged old_file repos = false ↔ extract_urls repos = old_urls old_file) := by
  refine ⟨?_, ?_, ?_⟩
  · intro o r
    simp [hasChanged]
  · intro prev next h
    have hurls : prev.map (fun p => p.2.url) = next.map (fun p => p.2.url) := by
      have h2 := congrArg (List.map (fun r : Repo => r.url)) h
      simpa [List.map_map, Function.comp] using h2
    simp only [hasChanged, old_urls, extract_urls, hurls, decide_eq_false_iff_not,
      ne_eq, not_not]
  · intro o r
    simp [hasChanged]

/-- C2 witness: renaming the sole display name with the URL held fixed is
not a change. -/
theorem C2_rename_witness :
    hasChanged (some [("old name", gh_repo "org/repo")]) [("new name", gh_repo "org/repo")] = false :=
  C2_hasChanged_iff_url_sets_differ.2.1
    [("old name", gh_repo "org/repo")] [("new name", gh_repo "org/repo")] (by decide)

/-- C8: the final mapping always holds, for each display name, the value of
the last insertion of that name in rule order (last write wins, whether or
not the descriptors differ); concretely, in a profile with both the
operations rule and the later wikimedia rule enabled, both rules insert the
display name for the MediaWiki config repository and the final entry is the
descriptor inserted by the later (wikimedia) rule. -/
theorem C8_last_write_wins :
    (∀ (l : List (String × Repo)) (k : String),
      dlookup k (dict_of l) =
        ((l.filter (fun p => p.1 == k)).getLast?).map (fun p => p.2)) ∧
    ((build_repos env_ok { Flags.noneSet with operations := true, wikimedia := true }).map
        (fun ins => ins.filter (fun p => p.1 == "Wikimedia MediaWiki config")) =
      .ok [("Wikimedia MediaWiki config", repo_info "operations/mediawiki-config"),
           ("Wikimedia MediaWiki config", repo_info "operations/mediawiki-config")]) ∧
    ((build_repos env_ok { Flags.noneSet with operations := true, wikimedia := true }).map
        (fun ins => dlookup "Wikimedia MediaWiki config" (dict_of ins)) =
      .ok (some (repo_info "operations/mediawiki-config"))) := by
  refine ⟨dlookup_dict_of, by decide, by decide⟩

/-- The new configuration is written in every branch of the publish tail. -/
theorem publish_writes (dn : String) (rf : Bool)
    (of : Option (List (String × Repo))) (rs : List (String × Repo)) (se re : Nat) :
    Event.writeConfig ∈ (publish dn rf of rs se re).1 := by
  rcases of with _ | o <;> simp only [publish] <;> split_ifs <;> simp

/-- When a previous file exists it is read first, before the write. -/
theorem publish_read_first (dn : String) (rf : Bool)
    (o : List (String × Repo)) (rs : List (String × Repo)) (se re : Nat) :
    (publish dn rf (some o) rs se re).1.head? = some Event.readOldConfig := by
  simp only [publish]
  split_ifs <;> simp

/-- The restart command appears in the trace only when the restart flag is
set, the fingerprint changed, and the status query exited zero. -/
theorem publish_restart_conditions (dn : String) (rf : Bool)
    (of : Option (List (String × Repo))) (rs : List (String × Repo)) (se re : Nat)
    (h : Event.restartCmd dn ∈ (publish dn rf of rs se re).1) :
    rf = true ∧ hasChanged of rs = true ∧ se = 0 := by
  cases rf with
  | false =>
    exfalso
    rcases of with _ | o <;> simp [publish] at h
  | true =>
    cases hch : hasChanged of rs with
    | false =>
      exfalso
      rcases of with _ | o <;> simp [publish, hch] at h
    | true =>
      cases hse : (se != 0) with
      | true =>
        exfalso
        rcases of with _ | o <;> simp [publish, hch, hse] at h
      | false =>
        have hse0 : se = 0 := by simpa using hse
        exact ⟨rfl, rfl, hse0⟩

/-- A non-zero status exit after a detected change skips the restart and
the profile publish still succeeds (with the status query in the trace). -/
theorem publish_status_skip_ok (dn : String)
    (of : Option (List (String × Repo))) (rs : List (String × Repo)) (se re : Nat)
    (h1 : hasChanged of rs = true) (h2 : se ≠ 0) :
    (publish dn true of rs se re).2 = Except.ok () ∧
    ¬ Event.restartCmd dn ∈ (publish dn true of rs se re).1 ∧
    Event.statusQuery dn ∈ (publish dn true of rs se re).1 := by
  have hse : (se != 0) = true := by simpa using h2
  rcases of with _ | o <;> simp [publish, h1, hse]

/-- A zero status exit after a detected change issues the restart command. -/
theorem publish_restart_issued (dn : String)
    (of : Option (List (String × Repo))) (rs : List (String × Repo)) (se re : Nat)
    (h1 : hasChanged of rs = true) (h2 : se = 0) :
    Event.restartCmd dn ∈ (publish dn true of rs se re).1 := by
  subst h2
  rcases of with _ | o <;> by_cases hre : (re != 0) = true <;>
    simp [publish, h1, hre]

/-- C3: in the publish tail the previous file, when present, is read first —
before the unconditional write — so the fingerprint comparison uses the
pre-write contents; the new configuration is written in every branch; the
restart command appears in the trace only when the restart flag is set, the
fingerprints differ, and the status query exited zero; and a non-zero
status exit (instance not yet managed) is not an error for the profile. -/
theorem C3_publish_prewrite_compare_and_restart_guard :
    ∀ (dirname : String) (restartFlag : Bool)
      (old_file : Option (List (String × Repo))) (repos : List (String × Repo))
      (statusExit restartExit : Nat),
      (Event.writeConfig ∈ (publish dirname restartFlag old_file repos statusExit restartExit).1) ∧
      (∀ o, old_file = some o →
        (publish dirname restartFlag old_file repos statusExit restartExit).1.head? =
          some Event.readOldConfig) ∧
      (Event.restartCmd dirname ∈ (publish dirname restartFlag old_file repos statusExit restartExit).1 →
        restartFlag = true ∧ hasChanged old_file repos = true ∧ statusExit = 0) ∧
      (restartFlag = true → hasChanged old_file repos = true → statusExit ≠ 0 →
        (publish dirname restartFlag old_file repos statusExit restartExit).2 = Except.ok ()) := by
  intro dn rf of rs se re
  refine ⟨publish_writes dn rf of rs se re, ?_,
    publish_restart_conditions dn rf of rs se re, ?_⟩
  · intro o ho
    subst ho
    exact publish_read_first dn rf o rs se re
  · intro hrf h1 h2
    subst hrf
    exact (publish_status_skip_ok dn of rs se re h1 h2).1

/-- C3 witness: with a previous file present, the trace starts with the
read of the previous file; and with equal fingerprints the restart command
is absent from the trace (restart guard exercised via the trace
condition). -/
theorem C3_publish_witness :
    (publish "hound-search" true (some [("a", gh_repo "org/x")])
        [("b", gh_repo "org/y")] 0 0).1.head? = some Event.readOldConfig :=
  (C3_publish_prewrite_compare_and_restart_guard "hound-search" true
      (some [("a", gh_repo "org/x")]) [("b", gh_repo "org/y")] 0 0).2.1
    [("a", gh_repo "org/x")] rfl

/-- C10: any non-zero exit of the process-manager status query — whatever
its cause, instance not registered or a registered unit that is inactive or
failed — skips the restart silently and the publish completes successfully;
the restart command is issued exactly in the zero-exit case (given the
restart flag and a changed fingerprint). -/
theorem C10_nonzero_status_exit_skips_restart :
    ∀ (dirname : String) (old_file : Option (List (String × Repo)))
      (repos : List (String × Repo)) (statusExit restartExit : Nat),
      (statusExit ≠ 0 → hasChanged old_file repos = true →
        (publish dirname true old_file repos statusExit restartExit).2 = Except.ok () ∧
        ¬ Event.restartCmd dirname ∈ (publish dirname true old_file repos statusExit restartExit).1 ∧
        Event.statusQuery dirname ∈ (publish dirname true old_file repos statusExit restartExit).1) ∧
      (Event.restartCmd dirname ∈ (publish dirname true old_file repos statusExit restartExit).1 →
        statusExit = 0) ∧
      (statusExit = 0 → hasChanged old_file repos = true →
        Event.restartCmd dirname ∈ (publish dirname true old_file repos statusExit restartExit).1) := by
  intro dn of rs se re
  refine ⟨fun h2 h1 => publish_status_skip_ok dn of rs se re h1 h2,
    fun h => (publish_restart_conditions dn true of rs se re h).2.2,
    fun h2 h1 => publish_restart_issued dn of rs se re h1 h2⟩

/-- C10 witness: status exit 3 (a registered but inactive unit) with a
changed fingerprint still yields a successful publish. -/
theorem C10_publish_witness :
    (publish "hound-core" true none [("a", gh_repo "org/x")] 3 0).2 = Except.ok () :=
  ((C10_nonzero_status_exit_skips_restart "hound-core" none
      [("a", gh_repo "org/x")] 3 0).1 (by decide) (by decide)).1
